import Mathlib

/-! # Verification of bq2csv

A shallow embedding of the bq2csv command-line utility (Go), which reads a
BigQuery SQL script from stdin, executes it, and streams the result rows to
stdout as delimited text while recording execution statistics.

The embedding covers:
* `RowLoader.Load` (rowloader.go) — conversion of typed BigQuery cells to text,
  including the trailing-zero trimming of NUMERIC / BIGNUMERIC values;
* the `Query` execution record and its operations `ReadStdIn`, `ExecuteQuery`
  (both the current implementation layered over `bufio.NewWriter(os.Stdout)`
  and the older one from query.go where relevant), `ExecuteDryRun`,
  `ExecuteQueries` (query.go);
* the `main` control flow (flag validation, stdin read, execution, exit code).

External collaborators are modelled as environments: the warehouse service is a
cursor (a list of rows followed by either exhaustion or an error), stdin is a
byte string plus a terminal flag, and `time.Now()` is a monotonic tick counter.
Writes to the process's stdout file descriptor are modelled as always
succeeding; `bufio.Writer` buffering (capacity 4096) and `encoding/csv`
encoding are modelled byte-for-byte.
-/

/-- Go `error` values are modelled by their message string. -/
abbrev GoError := String

/-! ## Decimal rendering of big.Rat values

`bigquery.NumericString r` is `r.FloatString(9)` and `bigquery.BigNumericString r`
is `r.FloatString(38)`.  `big.Rat.FloatString(prec)` renders the rational with
exactly `prec` fractional digits, rounding the last digit to nearest with ties
away from zero, with a leading `-` when the numerator is negative.  Go's
`big.Rat` is kept in lowest terms, exactly like Lean's `ℚ`.
-/

/-- The magnitude of `q` scaled by `10^prec` and rounded to nearest
(ties away from zero), as computed by `big.Rat.FloatString`. -/
def fsScaled (prec : Nat) (q : ℚ) : Nat :=
  let t := q.num.natAbs * 10 ^ prec
  if q.den ≤ 2 * (t % q.den) then t / q.den + 1 else t / q.den

/-- Left-pad a digit string with zeros to width `prec`
(Go pads the fractional digits of `FloatString` with leading zeros). -/
def padLeftZeros (prec : Nat) (s : String) : String :=
  ⟨List.replicate (prec - s.data.length) '0' ++ s.data⟩

/-- The part of `FloatString` before the decimal point: optional sign and the
decimal digits of the integer part. -/
def fsIntStr (prec : Nat) (q : ℚ) : String :=
  (if q.num < 0 then "-" else "") ++ Nat.repr (fsScaled prec q / 10 ^ prec)

/-- The `prec` fractional digits of `FloatString`, zero-padded on the left. -/
def fsFracStr (prec : Nat) (q : ℚ) : String :=
  padLeftZeros prec (Nat.repr (fsScaled prec q % 10 ^ prec))

/-- Go `big.Rat.FloatString(prec)` for `prec > 0`: sign, integer digits, `.`,
and exactly `prec` fractional digits. -/
def floatString (prec : Nat) (q : ℚ) : String :=
  fsIntStr prec q ++ "." ++ fsFracStr prec q

/-- Go `bigquery.NumericString`: `FloatString(9)` (NUMERIC has scale 9). -/
def numericString (q : ℚ) : String := floatString 9 q

/-- Go `bigquery.BigNumericString`: `FloatString(38)` (BIGNUMERIC has scale 38). -/
def bigNumericString (q : ℚ) : String := floatString 38 q

/-- Go `strings.TrimRight` on a list of characters for a single-character cutset:
remove all trailing occurrences of `c`. -/
def trimRightCharList (l : List Char) (c : Char) : List Char :=
  (l.reverse.dropWhile (fun x => x = c)).reverse

/-- Go `strings.TrimRight s cutset` for a single-character cutset: remove all
trailing occurrences of `c`. -/
def trimRightChar (s : String) (c : Char) : String :=
  ⟨trimRightCharList s.data c⟩

/-- Go `strconv.FormatInt val 10`: decimal rendering of an int64 value. -/
def intDecimal (n : Int) : String := Int.repr n

/-- Applying `fmt.Sprint` to a `*big.Rat` uses `big.Rat.String`, which always renders
as `numerator/denominator` (even when the denominator is 1). -/
def ratSprint (q : ℚ) : String := intDecimal q.num ++ "/" ++ Nat.repr q.den

/-! ## RowLoader (rowloader.go) -/

/-- A BigQuery cell value (`bigquery.Value`), restricted to the cases the
converter distinguishes.  Values of any other dynamic type are opaque to this
program and only ever reach `fmt.Sprint`, so the `other` constructor carries
that default textual rendering as its data. -/
inductive Value where
  | str (s : String)
  | int64 (n : Int)
  | rat (q : ℚ)
  | other (rendered : String)
deriving DecidableEq

/-- The schema type tag of a column (`bigquery.FieldType`), distinguishing only
the two numeric kinds the converter cares about. -/
inductive FieldType where
  | numeric
  | bignumeric
  | otherType (name : String)
deriving DecidableEq

/-- One cell of `RowLoader.Load` (rowloader.go): a `string` is used verbatim,
an `int64` goes through `strconv.FormatInt`, a `*big.Rat` is rendered by
`NumericString`/`BigNumericString` with trailing `0`s and then a trailing `.`
trimmed when the schema tag is NUMERIC/BIGNUMERIC (falling back to
`fmt.Sprint` otherwise), and every other value is `fmt.Sprint`ed. -/
def loadValue (v : Value) (ft : FieldType) : String :=
  match v with
  | .str s => s
  | .int64 n => intDecimal n
  | .rat q =>
    match ft with
    | .numeric => trimRightChar (trimRightChar (numericString q) '0') '.'
    | .bignumeric => trimRightChar (trimRightChar (bigNumericString q) '0') '.'
    | .otherType _ => ratSprint q
  | .other rendered => rendered

/-- Method `RowLoader.Load` over a whole row: convert each cell against its schema
entry.  (Go indexes `schema[i]`; rows and schemas always have equal length.) -/
def rowLoaderLoad (row : List Value) (schema : List FieldType) : List String :=
  (row.zip schema).map (fun p => loadValue p.1 p.2)

/-! ## encoding/csv record encoding (Go standard library, `UseCRLF = false`)

`csv.Writer.Write` encodes one record: fields separated by `Comma`, fields
containing the delimiter, a quote, or a line break (or starting with white
space) are quoted with embedded quotes doubled, and the record ends in `\n`.
-/

/-- Go `unicode.IsSpace` restricted to the Latin-1 range relevant here. -/
def goIsSpace (c : Char) : Bool :=
  c = ' ' || c = '\t' || c = '\n' || c = (Char.ofNat 11) || c = (Char.ofNat 12) ||
  c = '\r' || c.val = 0x85 || c.val = 0xA0

/-- Go `csv.validDelim`: the delimiter must not be NUL, quote, CR, LF, or the
Unicode replacement character. -/
def validDelim (c : Char) : Bool :=
  c.val ≠ 0 && c ≠ '"' && c ≠ '\r' && c ≠ '\n' && c.val ≠ 0xFFFD

/-- Go `csv.Writer.fieldNeedsQuotes`: empty fields are not quoted, a lone
backslash-dot is, fields containing the delimiter / quote / CR / LF are,
and so are fields starting with white space. -/
def fieldNeedsQuotes (comma : Char) (field : String) : Bool :=
  if field = "" then false
  else if field = "\\." then true
  else if field.data.any (fun c => c = comma || c = '"' || c = '\r' || c = '\n') then true
  else goIsSpace field.data.head!

/-- The body of a quoted csv field with `UseCRLF = false`: quotes are doubled,
CR and LF are copied through unchanged. -/
def csvEscapeQuoted (field : List Char) : List Char :=
  (field.map (fun c => if c = '"' then ['"', '"'] else [c])).flatten

/-- One encoded csv field. -/
def csvEncodeField (comma : Char) (field : String) : List Char :=
  if fieldNeedsQuotes comma field then '"' :: csvEscapeQuoted field.data ++ ['"']
  else field.data

/-- The bytes `csv.Writer.Write` produces for one record: delimiter-separated
encoded fields terminated by a line feed. -/
def csvEncodeRecord (comma : Char) (record : List String) : List Char :=
  (List.intersperse [comma] (record.map (csvEncodeField comma))).flatten ++ ['\n']

/-! ## The buffered writer stack of the current ExecuteQuery (rowloader.go)

`w := csv.NewWriter(bufio.NewWriter(os.Stdout))` stacks two `bufio.Writer`s:
the one `csv.NewWriter` creates internally (flushed by the deferred
`w.Flush()`) and the explicitly created one wrapping `os.Stdout` (which the
program never flushes).  Both have the default 4096-byte capacity.  Writes to
the `os.Stdout` file descriptor itself always succeed in this model.
-/

/-- Default `bufio.Writer` capacity. -/
def bufioCap : Nat := 4096

/-- Go `bufio.Writer.Write`: returns the final buffer contents and the chunks
passed to the underlying writer, in order.  While the data does not fit in the
available space: an empty buffer forwards the data downstream directly, a
non-empty buffer is filled to capacity and flushed.  The fuel bounds the
recursion (at most two recursive steps occur). -/
def bufioWriteAux : Nat → List Char → List Char → List (List Char) →
    List Char × List (List Char)
  | 0, buf, p, chunks => (buf ++ p, chunks)
  | fuel + 1, buf, p, chunks =>
    if p.length ≤ bufioCap - buf.length then (buf ++ p, chunks)
    else if buf.length = 0 then (buf, chunks ++ [p])
    else
      let n := bufioCap - buf.length
      bufioWriteAux fuel [] (p.drop n) (chunks ++ [buf ++ p.take n])

/-- Go `bufio.Writer.Write` on buffer contents `buf` with new data `p`. -/
def bufioWrite (buf p : List Char) : List Char × List (List Char) :=
  bufioWriteAux (p.length + 2) buf p []

/-- The output state of the current ExecuteQuery: the bytes that have reached
the `os.Stdout` file descriptor, the contents of the explicit outer
`bufio.Writer`, the contents of the csv writer's internal buffer, and the
number of records handed to `csv.Writer.Write` so far. -/
structure WriterStack where
  stdout : String
  outerBuf : String
  innerBuf : String
  recordsWritten : Nat
deriving DecidableEq

/-- A write through the outer `bufio.Writer`, whose underlying writer is
`os.Stdout` (which accepts every chunk). -/
def writeOuter (ws : WriterStack) (p : List Char) : WriterStack :=
  let r := bufioWrite ws.outerBuf.data p
  { ws with outerBuf := ⟨r.1⟩, stdout := ws.stdout ++ ⟨r.2.flatten⟩ }

/-- A write through the csv writer's internal `bufio.Writer`, whose underlying
writer is the outer `bufio.Writer`. -/
def writeInner (ws : WriterStack) (p : List Char) : WriterStack :=
  let r := bufioWrite ws.innerBuf.data p
  (r.2.foldl writeOuter { ws with innerBuf := ⟨r.1⟩ })

/-- Go `csv.Writer.Flush`: flush the csv writer's internal buffer into the
underlying writer — here the outer `bufio.Writer`, which is itself never
flushed by the program. -/
def csvFlush (ws : WriterStack) : WriterStack :=
  { writeOuter ws ws.innerBuf.data with innerBuf := "" }

/-- Go `csv.Writer.Write`: fails on an invalid delimiter, otherwise encodes the
record into the internal buffered writer.  `recordsWritten` counts the
successfully written records. -/
def csvWriteRecord (comma : Char) (ws : WriterStack) (record : List String) :
    Except GoError WriterStack :=
  if validDelim comma then
    let ws := writeInner ws (csvEncodeRecord comma record)
    .ok { ws with recordsWritten := ws.recordsWritten + 1 }
  else
    .error "csv: invalid field or comment delimiter"

/-! ## The execution record and query execution (rowloader.go / query.go) -/

/-- The `Query` execution record.  `time.Time` zero values are `none`;
`time.Now()` results are ticks of a monotonic clock. -/
structure Query where
  SQL : String
  Error : Option GoError
  QueryStartTime : Option Nat
  QueryEndTime : Option Nat
  FirstRowReturnedTime : Option Nat
  AllRowsReturnedTime : Option Nat
  TotalRowsReturned : Int
deriving DecidableEq

/-- The zero-valued record declared by `var query Query` in main. -/
def freshQuery : Query :=
  { SQL := "", Error := none, QueryStartTime := none, QueryEndTime := none,
    FirstRowReturnedTime := none, AllRowsReturnedTime := none,
    TotalRowsReturned := 0 }

/-- The behaviour of the row iterator returned by `q.Read`: it yields the
rows of `rows` (each loaded against `schema`) in order, and afterwards
`it.Next` returns `iterator.Done` when `outcome` is `none` or the error
`e` when `outcome` is `some e`. -/
structure Cursor where
  schema : List FieldType
  rows : List (List Value)
  outcome : Option GoError

/-- The configuration record submitted to the BigQuery client
(`client.Query(...)` plus the fields the program assigns). -/
structure BigQueryConfig where
  sql : String
  defaultProjectID : String
  defaultDatasetID : String
  location : String
  disableQueryCache : Bool
  dryRun : Bool
deriving DecidableEq

/-- The query configuration built by the current `ExecuteQuery`
(rowloader.go): `q.DisableQueryCache = disableQueryCache`, `q.DryRun = false`,
and `q.Location` is assigned. -/
def configureQueryNew (sqlText project dataset location : String)
    (disableQueryCache : Bool) : BigQueryConfig :=
  { sql := sqlText, defaultProjectID := project, defaultDatasetID := dataset,
    location := location, disableQueryCache := disableQueryCache,
    dryRun := false }

/-- The query configuration built by the old `ExecuteQuery` (query.go): its
boolean parameter is named `cache` and it assigns
`q.DisableQueryCache = !cache`; `q.Location` is left at its zero value. -/
def configureQueryOld (sqlText project dataset : String)
    (cache : Bool) : BigQueryConfig :=
  { sql := sqlText, defaultProjectID := project, defaultDatasetID := dataset,
    location := "", disableQueryCache := !cache, dryRun := false }

/-- The dry-run configuration built by `ExecuteDryRun` (rowloader.go):
identical to `configureQueryNew` except `q.DryRun = true`. -/
def configureDryRun (sqlText project dataset location : String)
    (disableQueryCache : Bool) : BigQueryConfig :=
  { configureQueryNew sqlText project dataset location disableQueryCache with
    dryRun := true }

/-- The row loop of the current `ExecuteQuery` (rowloader.go).  Each iteration
polls `it.Next(&rl)`; on the first poll (`rowCount == 0`) the first-row
timestamp is taken, whatever the poll returned.  `iterator.Done` records the
all-rows timestamp and stores the row count; an iterator error is stored in
the error slot and aborts; otherwise the loaded row is written through the
csv writer (a write failure is stored as an error and aborts) and the local
row counter is incremented. -/
def executeQueryLoop (comma : Char) (schema : List FieldType) :
    List (List Value) → Option GoError → Int → Query → WriterStack → Nat →
    Query × WriterStack × Nat
  | row :: rest, outcome, rowCount, sql, ws, clock =>
    let s := if rowCount = 0 then
        ({ sql with FirstRowReturnedTime := some clock }, clock + 1)
      else (sql, clock)
    match csvWriteRecord comma ws (rowLoaderLoad row schema) with
    | .error _ =>
      ({ s.1 with Error := some "failed writing to the output file" }, ws, s.2)
    | .ok ws' => executeQueryLoop comma schema rest outcome (rowCount + 1) s.1 ws' s.2
  | [], outcome, rowCount, sql, ws, clock =>
    let s := if rowCount = 0 then
        ({ sql with FirstRowReturnedTime := some clock }, clock + 1)
      else (sql, clock)
    match outcome with
    | none =>
      ({ s.1 with AllRowsReturnedTime := some s.2, TotalRowsReturned := rowCount },
        ws, s.2 + 1)
    | some e => ({ s.1 with Error := some e }, ws, s.2)

/-- The result of one `ExecuteQuery`/`ExecuteQueries` call: the updated
execution record, the output state, and the clock. -/
structure ExecResult where
  record : Query
  ws : WriterStack
  clock : Nat
deriving DecidableEq

/-- The current `ExecuteQuery` (rowloader.go).  `readErr` is the error of
`q.Read(ctx)` (`none` on success).  The query-start timestamp is taken, the
query is submitted, the query-end timestamp is taken, and a read error is
stored and aborts.  Otherwise the csv writer is created over
`bufio.NewWriter(os.Stdout)` with `w.Comma` set to the delimiter's first
byte, the row loop runs, and the deferred `w.Flush()` flushes the csv
writer's internal buffer — but never the outer `bufio.Writer` — on every
exit path after the writer's creation. -/
def executeQuery (readErr : Option GoError) (cur : Cursor) (delimiter : String)
    (sql : Query) (stdout : String) (clock : Nat) : ExecResult :=
  let sql := { sql with QueryStartTime := some clock }
  let clock := clock + 1
  match readErr with
  | some e =>
    ⟨{ sql with QueryEndTime := some clock, Error := some e },
      ⟨stdout, "", "", 0⟩, clock + 1⟩
  | none =>
    let sql := { sql with QueryEndTime := some clock }
    let clock := clock + 1
    let ws : WriterStack := ⟨stdout, "", "", 0⟩
    let r := executeQueryLoop delimiter.data.head! cur.schema cur.rows
      cur.outcome 0 sql ws clock
    ⟨r.1, csvFlush r.2.1, r.2.2⟩

/-- The possible outcomes of submitting a dry run: `q.Run` fails, the job's
last status carries an error, or the dry run succeeds. -/
inductive DryRunOutcome where
  | runErr (e : GoError)
  | statusErr (e : GoError)
  | ok

/-- Method `ExecuteDryRun` (rowloader.go): take the start timestamp, submit the job,
store a submission error or a last-status error in the error slot (returning
before the end timestamp is taken), otherwise take the end timestamp.  No
writer is created and nothing is written to stdout. -/
def executeDryRun (outcome : DryRunOutcome) (sql : Query) (clock : Nat) :
    Query × Nat :=
  let sql := { sql with QueryStartTime := some clock }
  let clock := clock + 1
  match outcome with
  | .runErr e => ({ sql with Error := some e }, clock)
  | .statusErr e => ({ sql with Error := some e }, clock)
  | .ok => ({ sql with QueryEndTime := some clock }, clock + 1)

/-- The external behaviour visible to one `ExecuteQueries` call. -/
structure ExecEnv where
  clientErr : Option GoError
  readErr : Option GoError
  cursor : Cursor
  dryOutcome : DryRunOutcome

/-- The result of `ExecuteQueries`: its returned `error`, the record, the
output state and the clock. -/
structure QueriesResult where
  ret : Except GoError Unit
  record : Query
  ws : WriterStack
  clock : Nat

/-- Method `ExecuteQueries` (rowloader.go): establish the client (a failure returns
an error before anything is executed), run either `ExecuteDryRun` or
`ExecuteQuery` followed by its logging routine (which writes to stderr only),
and return an error exactly when the error slot is populated. -/
def executeQueries (env : ExecEnv) (project dataset location : String)
    (disableQueryCache dryRun : Bool) (delimiter : String)
    (sql : Query) (stdout : String) (clock : Nat) : QueriesResult :=
  match env.clientErr with
  | some e =>
    ⟨.error ("failed establishing a BigQuery client connection: " ++ e),
      sql, ⟨stdout, "", "", 0⟩, clock⟩
  | none =>
    if dryRun then
      let r := executeDryRun env.dryOutcome sql clock
      if r.1.Error.isSome then
        ⟨.error "one or more queries failed", r.1, ⟨stdout, "", "", 0⟩, r.2⟩
      else ⟨.ok (), r.1, ⟨stdout, "", "", 0⟩, r.2⟩
    else
      let r := executeQuery env.readErr env.cursor delimiter sql stdout clock
      if r.record.Error.isSome then
        ⟨.error "one or more queries failed", r.record, r.ws, r.clock⟩
      else ⟨.ok (), r.record, r.ws, r.clock⟩

/-! ## Standard input and the main control flow (main.go) -/

/-- The state of standard input: whether it is an interactive terminal, the
bytes available on it, and a possible read failure. -/
structure StdinState where
  isTerminal : Bool
  data : String
  readErr : Option GoError

/-- Method `ReadStdIn` (rowloader.go): fail when stdin is a character device, fail
when `io.ReadAll` fails, otherwise store the bytes read, unchanged, as the
SQL payload. -/
def readStdIn (stdin : StdinState) (sql : Query) : Except GoError Query :=
  if stdin.isTerminal then .error "[ReadStdIn] No SQL Found"
  else
    match stdin.readErr with
    | some e => .error ("[ReadStdIn] Read All Failed: " ++ e)
    | none => .ok { sql with SQL := stdin.data }

/-- The parsed command-line flags. -/
structure Args where
  targetProject : String
  targetDataset : String
  fieldDelimiter : String
  processingLocation : String
  disableQueryCache : Bool
  dryRun : Bool

/-- Everything outside the process that one `main` run observes. -/
structure MainEnv where
  args : Args
  stdin : StdinState
  exec : ExecEnv

/-- The observable outcome of a `main` run: the exit code, whether stdin was
read, whether the BigQuery client was contacted, the final record, and the
final output state. -/
structure MainResult where
  exitCode : Nat
  stdinRead : Bool
  networkCalled : Bool
  record : Query
  ws : WriterStack

/-- Function `main` (main.go): validate that the required project and dataset flags are
non-empty, then that the delimiter is exactly one byte (`len(*fieldDelimiter)`
counts bytes), exiting 1 on a violation before stdin is touched; read stdin,
exiting 1 on failure or an empty payload; then run `ExecuteQueries` and exit 1
when it returns an error, 0 otherwise. -/
def runMain (env : MainEnv) : MainResult :=
  if env.args.targetProject = "" ∨ env.args.targetDataset = "" then
    ⟨1, false, false, freshQuery, ⟨"", "", "", 0⟩⟩
  else if env.args.fieldDelimiter.utf8ByteSize ≠ 1 then
    ⟨1, false, false, freshQuery, ⟨"", "", "", 0⟩⟩
  else
    match readStdIn env.stdin freshQuery with
    | .error _ => ⟨1, true, false, freshQuery, ⟨"", "", "", 0⟩⟩
    | .ok sql =>
      if sql.SQL.length = 0 then ⟨1, true, false, sql, ⟨"", "", "", 0⟩⟩
      else
        let r := executeQueries env.exec env.args.targetProject
          env.args.targetDataset env.args.processingLocation
          env.args.disableQueryCache env.args.dryRun env.args.fieldDelimiter
          sql "" 0
        match r.ret with
        | .error _ => ⟨1, true, true, r.record, r.ws⟩
        | .ok _ => ⟨0, true, true, r.record, r.ws⟩

/-! ## The specified trimming behaviour (§4.3 of the spec) -/

/-- Follows the spec's words for the numeric converter: given the integer part
and the fractional digits of the rendered decimal string, strip trailing
fractional zeros and remove the trailing decimal point when the fraction is
fully stripped; the integer part is never touched. -/
def specTrimDecimal (intPart frac : String) : String :=
  let f := trimRightChar frac '0'
  if f = "" then intPart else intPart ++ "." ++ f

/-! ### Digit facts about the decimal renderings -/

theorem digitChar_isDigit (d : Nat) (h : d < 10) :
    (Nat.digitChar d).isDigit = true := by
  interval_cases d <;> decide

theorem toDigitsCore_digits (fuel : Nat) :
    ∀ (n : Nat) (acc : List Char), (∀ c ∈ acc, c.isDigit = true) →
      ∀ c ∈ Nat.toDigitsCore 10 fuel n acc, c.isDigit = true := by
  induction fuel with
  | zero => intro n acc hacc c hc; exact hacc c hc
  | succ fuel ih =>
    intro n acc hacc c hc
    rw [show Nat.toDigitsCore 10 (fuel + 1) n acc =
        if n / 10 = 0 then Nat.digitChar (n % 10) :: acc
        else Nat.toDigitsCore 10 fuel (n / 10) (Nat.digitChar (n % 10) :: acc)
      from rfl] at hc
    have hd : (Nat.digitChar (n % 10)).isDigit = true :=
      digitChar_isDigit _ (Nat.mod_lt _ (by omega))
    by_cases h : n / 10 = 0
    · rw [if_pos h] at hc
      simp only [List.mem_cons] at hc
      rcases hc with hc | hc
      · exact hc ▸ hd
      · exact hacc c hc
    · rw [if_neg h] at hc
      refine ih _ _ ?_ c hc
      intro x hx
      simp only [List.mem_cons] at hx
      rcases hx with hx | hx
      · exact hx ▸ hd
      · exact hacc x hx

theorem natRepr_digits (n : Nat) : ∀ c ∈ (Nat.repr n).data, c.isDigit = true := by
  intro c hc
  have : (Nat.repr n).data = Nat.toDigitsCore 10 (n + 1) n [] := rfl
  rw [this] at hc
  exact toDigitsCore_digits (n + 1) n [] (by intro c h; cases h) c hc

theorem toDigitsCore_ne_nil (fuel : Nat) :
    ∀ (n : Nat) (acc : List Char), (fuel ≠ 0 ∨ acc ≠ []) →
      Nat.toDigitsCore 10 fuel n acc ≠ [] := by
  induction fuel with
  | zero =>
    intro n acc h
    rcases h with h | h
    · exact absurd rfl h
    · exact h
  | succ fuel ih =>
    intro n acc _
    simp only [Nat.toDigitsCore]
    by_cases h : n / 10 = 0
    · simp [h]
    · simp only [if_neg h]
      exact ih _ _ (Or.inr (by simp))

theorem natRepr_ne_nil (n : Nat) : (Nat.repr n).data ≠ [] := by
  have : (Nat.repr n).data = Nat.toDigitsCore 10 (n + 1) n [] := rfl
  rw [this]
  exact toDigitsCore_ne_nil (n + 1) n [] (Or.inl (by omega))

theorem isDigit_not_dot {c : Char} (h : c.isDigit = true) : (c = '.') = false := by
  by_contra hne
  have : c = '.' := by
    revert hne
    by_cases hc : c = '.' <;> simp [hc]
  subst this
  exact absurd h (by decide)

theorem dropWhile_eq_cons_head_false {p : Char → Bool} {l : List Char}
    {x : Char} {xs : List Char} (h : l.dropWhile p = x :: xs) : p x = false := by
  induction l with
  | nil => simp at h
  | cons a t ih =>
    rw [List.dropWhile_cons] at h
    by_cases ha : p a = true
    · rw [if_pos ha] at h; exact ih h
    · rw [if_neg ha] at h
      cases h
      exact Bool.eq_false_iff.mpr ha

/-- The list-level core of the trimming argument: on input
integer part ++ '.' :: fractional digits (with a digit just before the
point), the double `TrimRight` strips the fraction's trailing zeros and drops
the point exactly when the whole fraction was zeros, leaving the integer part
untouched. -/
theorem trimList_double (preL fracL : List Char)
    (hfrac : ∀ c ∈ fracL, c.isDigit = true)
    (hpre : ∃ c t, preL.reverse = c :: t ∧ c.isDigit = true) :
    trimRightCharList (trimRightCharList (preL ++ '.' :: fracL) '0') '.' =
      if trimRightCharList fracL '0' = [] then preL
      else preL ++ '.' :: trimRightCharList fracL '0' := by
  obtain ⟨c0, t0, hrev, hdigit⟩ := hpre
  unfold trimRightCharList
  rw [List.reverse_append, List.reverse_cons, List.append_assoc,
    List.reverse_reverse, List.dropWhile_append]
  by_cases hempty :
      (fracL.reverse.dropWhile (fun x => decide (x = '0'))).isEmpty = true
  · rw [if_pos hempty, List.singleton_append,
      List.dropWhile_cons_of_neg (by decide)]
    have h1 : List.dropWhile (fun x => decide (x = '.'))
        ('.' :: preL.reverse) = preL.reverse := by
      rw [List.dropWhile_cons_of_pos (by decide), hrev,
        List.dropWhile_cons_of_neg
          (by simp only [isDigit_not_dot hdigit]; exact Bool.false_ne_true)]
    rw [h1, List.reverse_reverse]
    rw [List.isEmpty_iff] at hempty
    rw [if_pos (by rw [hempty]; rfl)]
  · rw [if_neg hempty]
    rw [List.isEmpty_iff] at hempty
    obtain ⟨c1, t1, hcons⟩ : ∃ c1 t1,
        fracL.reverse.dropWhile (fun x => decide (x = '0')) = c1 :: t1 := by
      rcases h : fracL.reverse.dropWhile (fun x => decide (x = '0')) with _ | ⟨a, l⟩
      · exact absurd h hempty
      · exact ⟨a, l, rfl⟩
    have hc1digit : c1.isDigit = true := by
      refine hfrac c1 ?_
      have hmem : c1 ∈ fracL.reverse.dropWhile (fun x => decide (x = '0')) := by
        rw [hcons]; exact List.mem_cons_self ..
      exact List.mem_reverse.mp ((List.dropWhile_sublist _).mem hmem)
    have h2 : List.dropWhile (fun x => decide (x = '.'))
        (c1 :: (t1 ++ '.' :: preL.reverse)) = c1 :: (t1 ++ '.' :: preL.reverse) :=
      List.dropWhile_cons_of_neg
        (by simp only [isDigit_not_dot hc1digit]; exact Bool.false_ne_true)
    rw [hcons, List.cons_append, List.singleton_append, h2]
    rw [if_neg (by simp)]
    rw [List.reverse_cons, List.reverse_append, List.reverse_cons,
      List.reverse_reverse, List.reverse_cons]
    simp [List.append_assoc]

/-- The double `strings.TrimRight` of the converter agrees with the spec's
description of the trimming whenever the input decomposes as
integer part ++ "." ++ fractional digits with a digit just before the point:
the fraction loses its trailing zeros, the point disappears exactly when the
whole fraction was zeros, and the integer part survives verbatim. -/
theorem doubleTrim_eq_specTrim (pre frac : String)
    (hfrac : ∀ c ∈ frac.data, c.isDigit = true)
    (hpre : ∃ c t, pre.data.reverse = c :: t ∧ c.isDigit = true) :
    trimRightChar (trimRightChar (pre ++ "." ++ frac) '0') '.' =
      specTrimDecimal pre frac := by
  have hdata : (pre ++ "." ++ frac).data = pre.data ++ '.' :: frac.data := by
    rw [String.data_append, String.data_append, List.append_assoc]
    rfl
  unfold trimRightChar specTrimDecimal
  simp only [hdata]
  rw [trimList_double pre.data frac.data hfrac hpre]
  by_cases h : trimRightCharList frac.data '0' = []
  · rw [if_pos h, if_pos (by unfold trimRightChar; rw [h])]
  · rw [if_neg h, if_neg (by
      unfold trimRightChar
      intro hcontra
      exact h (congrArg String.data hcontra))]
    refine String.ext ?_
    rw [String.data_append, String.data_append, List.append_assoc]
    rfl

theorem fsFracStr_digits (prec : Nat) (q : ℚ) :
    ∀ c ∈ (fsFracStr prec q).data, c.isDigit = true := by
  intro c hc
  unfold fsFracStr padLeftZeros at hc
  simp only [List.mem_append] at hc
  rcases hc with hc | hc
  · rw [List.eq_of_mem_replicate hc]; decide
  · exact natRepr_digits _ c hc

theorem fsIntStr_last_digit (prec : Nat) (q : ℚ) :
    ∃ c t, (fsIntStr prec q).data.reverse = c :: t ∧ c.isDigit = true := by
  unfold fsIntStr
  rw [String.data_append, List.reverse_append]
  rcases h : (Nat.repr (fsScaled prec q / 10 ^ prec)).data.reverse with _ | ⟨c, t⟩
  · have : (Nat.repr (fsScaled prec q / 10 ^ prec)).data = [] := by
      rw [← List.reverse_reverse (Nat.repr (fsScaled prec q / 10 ^ prec)).data, h]
      rfl
    exact absurd this (natRepr_ne_nil _)
  · refine ⟨c, t ++ (if q.num < 0 then "-" else "").data.reverse, ?_, ?_⟩
    · rw [List.cons_append]
    · have hmem : c ∈ (Nat.repr (fsScaled prec q / 10 ^ prec)).data.reverse := by
        rw [h]
        exact List.mem_cons_self ..
      exact natRepr_digits _ c (List.mem_reverse.mp hmem)

/-- The converter's double `TrimRight` of a `FloatString` rendering matches
the spec-side trimming applied to its integer part and its fraction. -/
theorem trim_floatString (prec : Nat) (q : ℚ) :
    trimRightChar (trimRightChar (floatString prec q) '0') '.' =
      specTrimDecimal (fsIntStr prec q) (fsFracStr prec q) := by
  unfold floatString
  exact doubleTrim_eq_specTrim _ _ (fsFracStr_digits prec q) (fsIntStr_last_digit prec q)

/-! ### Behaviour of the row loop -/

theorem writeInner_recordsWritten (ws : WriterStack) (p : List Char) :
    (writeInner ws p).recordsWritten = ws.recordsWritten := by
  unfold writeInner
  have h : ∀ (chunks : List (List Char)) (w : WriterStack),
      (chunks.foldl writeOuter w).recordsWritten = w.recordsWritten := by
    intro chunks
    induction chunks with
    | nil => intro w; rfl
    | cons a l ih => intro w; rw [List.foldl_cons, ih]; rfl
  exact h _ _

theorem csvWriteRecord_ok (comma : Char) (hvalid : validDelim comma = true)
    (ws : WriterStack) (record : List String) :
    csvWriteRecord comma ws record =
      .ok { writeInner ws (csvEncodeRecord comma record) with
        recordsWritten := ws.recordsWritten + 1 } := by
  unfold csvWriteRecord
  rw [if_pos hvalid]
  have h := writeInner_recordsWritten ws (csvEncodeRecord comma record)
  simp only [h]

/-- On a cursor that ends in an error after its rows, the loop records the
error, leaves the stored row counter unchanged, and has handed one record per
row to the csv writer. -/
theorem executeQueryLoop_error (comma : Char) (schema : List FieldType)
    (hvalid : validDelim comma = true) (rows : List (List Value)) :
    ∀ (e : GoError) (rowCount : Int) (sql : Query) (ws : WriterStack) (clock : Nat),
      (executeQueryLoop comma schema rows (some e) rowCount sql ws clock).1.TotalRowsReturned
          = sql.TotalRowsReturned ∧
      (executeQueryLoop comma schema rows (some e) rowCount sql ws clock).1.Error = some e ∧
      (executeQueryLoop comma schema rows (some e) rowCount sql ws clock).2.1.recordsWritten
          = ws.recordsWritten + rows.length := by
  induction rows with
  | nil =>
    intro e rowCount sql ws clock
    by_cases h0 : rowCount = 0 <;>
      simp [executeQueryLoop, h0]
  | cons row rest ih =>
    intro e rowCount sql ws clock
    have hw := csvWriteRecord_ok comma hvalid ws (rowLoaderLoad row schema)
    by_cases h0 : rowCount = 0
    · simp only [executeQueryLoop, hw, h0, if_pos]
      refine ⟨(ih e _ _ _ _).1, (ih e _ _ _ _).2.1, ?_⟩
      rw [(ih e _ _ _ _).2.2]
      simp [List.length_cons]
      omega
    · simp only [executeQueryLoop, hw, if_neg h0]
      refine ⟨(ih e _ _ _ _).1, (ih e _ _ _ _).2.1, ?_⟩
      rw [(ih e _ _ _ _).2.2]
      simp [List.length_cons]
      omega

/-- On a cursor that ends in `iterator.Done`, the loop stores
`rowCount + rows.length` in the row counter, leaves the error slot untouched,
and has handed one record per row to the csv writer. -/
theorem executeQueryLoop_done (comma : Char) (schema : List FieldType)
    (hvalid : validDelim comma = true) (rows : List (List Value)) :
    ∀ (rowCount : Int) (sql : Query) (ws : WriterStack) (clock : Nat),
      (executeQueryLoop comma schema rows none rowCount sql ws clock).1.TotalRowsReturned
          = rowCount + rows.length ∧
      (executeQueryLoop comma schema rows none rowCount sql ws clock).1.Error = sql.Error ∧
      (executeQueryLoop comma schema rows none rowCount sql ws clock).2.1.recordsWritten
          = ws.recordsWritten + rows.length := by
  induction rows with
  | nil =>
    intro rowCount sql ws clock
    by_cases h0 : rowCount = 0 <;>
      simp [executeQueryLoop, h0]
  | cons row rest ih =>
    intro rowCount sql ws clock
    have hw := csvWriteRecord_ok comma hvalid ws (rowLoaderLoad row schema)
    by_cases h0 : rowCount = 0
    · simp only [executeQueryLoop, hw, h0, if_pos]
      refine ⟨?_, (ih _ _ _ _).2.1, ?_⟩
      · rw [(ih _ _ _ _).1]
        simp [List.length_cons]
        omega
      · rw [(ih _ _ _ _).2.2]
        simp [List.length_cons]
        omega
    · simp only [executeQueryLoop, hw, if_neg h0]
      refine ⟨?_, (ih _ _ _ _).2.1, ?_⟩
      · rw [(ih _ _ _ _).1]
        simp [List.length_cons]
        omega
      · rw [(ih _ _ _ _).2.2]
        simp [List.length_cons]
        omega

/-- No step of the row loop ever clears a populated error slot. -/
theorem executeQueryLoop_preserves_error (comma : Char) (schema : List FieldType)
    (rows : List (List Value)) :
    ∀ (outcome : Option GoError) (rowCount : Int) (sql : Query)
      (ws : WriterStack) (clock : Nat), sql.Error.isSome = true →
      (executeQueryLoop comma schema rows outcome rowCount sql ws clock).1.Error.isSome = true := by
  induction rows with
  | nil =>
    intro outcome rowCount sql ws clock hsome
    rcases outcome with _ | e <;> by_cases h0 : rowCount = 0 <;>
      simp [executeQueryLoop, h0, hsome]
  | cons row rest ih =>
    intro outcome rowCount sql ws clock hsome
    rcases hcw : csvWriteRecord comma ws (rowLoaderLoad row schema) with e' | W
    · by_cases h0 : rowCount = 0 <;> simp [executeQueryLoop, hcw, h0]
    · by_cases h0 : rowCount = 0
      · simp only [executeQueryLoop, hcw, h0, if_pos]
        exact ih outcome _ _ _ _ hsome
      · simp only [executeQueryLoop, hcw, if_neg h0]
        exact ih outcome _ _ _ _ hsome

/-- The loop on an empty, exhausted cursor: the first poll already stamps the
first-row timestamp, then `Done` stamps the all-rows timestamp and stores a
row count of zero. -/
theorem executeQueryLoop_nil_done (comma : Char) (schema : List FieldType)
    (sql : Query) (ws : WriterStack) (clock : Nat) :
    executeQueryLoop comma schema [] none 0 sql ws clock =
      ({ sql with
          FirstRowReturnedTime := some clock
          AllRowsReturnedTime := some (clock + 1)
          TotalRowsReturned := 0 },
        ws, clock + 2) := by
  simp [executeQueryLoop]

theorem csvFlush_recordsWritten (ws : WriterStack) :
    (csvFlush ws).recordsWritten = ws.recordsWritten := rfl

theorem utf8ByteSizeGo_eq_sum (l : List Char) :
    String.utf8ByteSize.go l = (l.map Char.utf8Size).sum := by
  induction l with
  | nil => rfl
  | cons c t ih =>
    have h : String.utf8ByteSize.go (c :: t) =
        String.utf8ByteSize.go t + c.utf8Size := rfl
    rw [h, ih]
    simp
    omega

/-- A one-byte Go string is a one-character string (each character occupies at
least one byte). -/
theorem utf8ByteSize_one_length_one (s : String) (h : s.utf8ByteSize = 1) :
    s.length = 1 := by
  have hgo : String.utf8ByteSize.go s.data = 1 := h
  rw [utf8ByteSizeGo_eq_sum] at hgo
  rcases s with ⟨l⟩
  rcases l with _ | ⟨c, t⟩
  · simp at hgo
  · rcases t with _ | ⟨c2, t2⟩
    · rfl
    · exfalso
      simp only [List.map_cons, List.sum_cons] at hgo
      have h1 := Char.utf8Size_pos c
      have h2 := Char.utf8Size_pos c2
      omega

/-! ## Claims -/

/-- C2 counterexample: with the cache-disable flag set (`true`), the current
implementation submits with `DisableQueryCache = true` while the old
implementation submits with `DisableQueryCache = false` — the two
implementations do not agree on the caching configuration for the same flag
value. -/
theorem c2_cache_flag_counterexample :
    (configureQueryNew "SELECT 1" "p" "d" "loc" true).disableQueryCache = true ∧
    (configureQueryOld "SELECT 1" "p" "d" true).disableQueryCache = false := by
  exact ⟨rfl, rfl⟩

/-- C2 (amended): the current ExecuteQuery submits the query with result
caching disabled exactly when the cache-disable flag is set, while the old
ExecuteQuery sets the cache-disable configuration to the negation of its
boolean parameter, so given the same flag value the two implementations
configure caching oppositely. -/
theorem c2_cache_flag_semantics :
    ∀ (sqlText project dataset location : String) (b : Bool),
      (configureQueryNew sqlText project dataset location b).disableQueryCache = b ∧
      (configureQueryOld sqlText project dataset b).disableQueryCache = !b := by
  intro sqlText project dataset location b
  exact ⟨rfl, rfl⟩

/-- C5: a NUMERIC- or BIGNUMERIC-tagged decimal cell is rendered with its
trailing fractional zeros stripped and the trailing decimal point removed
when the fraction is fully stripped, never touching the integer digits
(the rendering equals the spec-side trimming of the `FloatString` parts);
in particular 5.000 renders as "5", 3.1400 as "3.14" and 0.000 as "0"
under both numeric kinds. -/
theorem c5_numeric_trimming :
    (∀ q : ℚ,
      loadValue (Value.rat q) FieldType.numeric =
        specTrimDecimal (fsIntStr 9 q) (fsFracStr 9 q) ∧
      loadValue (Value.rat q) FieldType.bignumeric =
        specTrimDecimal (fsIntStr 38 q) (fsFracStr 38 q)) ∧
    loadValue (Value.rat (mkRat 5000 1000)) FieldType.numeric = "5" ∧
    loadValue (Value.rat (mkRat 31400 10000)) FieldType.numeric = "3.14" ∧
    loadValue (Value.rat (mkRat 0 1000)) FieldType.numeric = "0" ∧
    loadValue (Value.rat (mkRat 5000 1000)) FieldType.bignumeric = "5" ∧
    loadValue (Value.rat (mkRat 31400 10000)) FieldType.bignumeric = "3.14" ∧
    loadValue (Value.rat (mkRat 0 1000)) FieldType.bignumeric = "0" := by
  refine ⟨fun q => ⟨trim_floatString 9 q, trim_floatString 38 q⟩,
    ?_, ?_, ?_, ?_, ?_, ?_⟩ <;> decide

/-- C8: for a non-terminal stdin whose read succeeds, the SQL payload stored
in the record equals the input bytes exactly — `ReadStdIn` performs a pure
read-then-store round trip. -/
theorem c8_stdin_round_trip (stdin : StdinState) (sql : Query)
    (hterm : stdin.isTerminal = false) (herr : stdin.readErr = none)
    (hne : stdin.data ≠ "") :
    readStdIn stdin sql = .ok { sql with SQL := stdin.data } := by
  unfold readStdIn
  rw [hterm, herr]
  rfl

/-- C8 witness: the concrete input "SELECT 1" is stored unchanged. -/
theorem c8_stdin_round_trip_witness :
    readStdIn { isTerminal := false, data := "SELECT 1", readErr := none }
        freshQuery = .ok { freshQuery with SQL := "SELECT 1" } :=
  c8_stdin_round_trip { isTerminal := false, data := "SELECT 1", readErr := none }
    freshQuery rfl rfl (by decide)

/-- C10: on a real execution whose cursor yields zero rows and then reports
exhaustion, the first poll still stamps the first-row-received timestamp
(two ticks after query start), while the row counter and the records written
stay 0 — a set first-row timestamp does not imply that any row was
received. -/
theorem c10_first_row_stamp_without_rows (schema : List FieldType)
    (delimiter : String) (sql : Query) (stdout : String) (clock : Nat) :
    (executeQuery none ⟨schema, [], none⟩ delimiter sql stdout
        clock).record.FirstRowReturnedTime = some (clock + 2) ∧
    (executeQuery none ⟨schema, [], none⟩ delimiter sql stdout
        clock).record.TotalRowsReturned = 0 ∧
    (executeQuery none ⟨schema, [], none⟩ delimiter sql stdout
        clock).ws.recordsWritten = 0 ∧
    (executeQuery none ⟨schema, [], none⟩ delimiter sql stdout
        clock).ws.stdout = stdout := by
  simp only [executeQuery]
  rw [executeQueryLoop_nil_done]
  refine ⟨rfl, rfl, rfl, ?_⟩
  show (csvFlush ⟨stdout, "", "", 0⟩).stdout = stdout
  simp [csvFlush, writeOuter, bufioWrite, bufioWriteAux, bufioCap]

/-- The cursor of a run that yields one row ["a"] and then fails. -/
def cursorOneRowErr : Cursor :=
  { schema := [FieldType.otherType "STRING"], rows := [[Value.str "a"]],
    outcome := some "bigquery: job failed" }

/-- C3 counterexample: on a real run whose cursor errors after one
successfully written row, the record's row counter ends at 0, not at the
number of rows actually written (1). -/
theorem c3_counter_counterexample :
    (executeQuery none cursorOneRowErr "," freshQuery "" 0).ws.recordsWritten = 1 ∧
    (executeQuery none cursorOneRowErr "," freshQuery "" 0).record.Error.isSome = true ∧
    (executeQuery none cursorOneRowErr "," freshQuery "" 0).record.TotalRowsReturned ≠ 1 := by
  refine ⟨?_, ?_, ?_⟩ <;> decide

/-- C3 (amended): on successful completion the row counter equals the number
of rows actually written; after a mid-iteration abort that follows k written
rows the counter instead retains its previous value (0 for the fresh
per-invocation record) — the k written rows are counted only in a local
variable that is stored solely in the `iterator.Done` branch. -/
theorem c3_row_counter (cur : Cursor) (delimiter : String) (sql : Query)
    (stdout : String) (clock : Nat)
    (hvalid : validDelim delimiter.data.head! = true) :
    (cur.outcome = none →
      (executeQuery none cur delimiter sql stdout clock).record.TotalRowsReturned
          = cur.rows.length ∧
      (executeQuery none cur delimiter sql stdout clock).ws.recordsWritten
          = cur.rows.length) ∧
    (∀ e, cur.outcome = some e →
      (executeQuery none cur delimiter sql stdout clock).record.TotalRowsReturned
          = sql.TotalRowsReturned ∧
      (executeQuery none cur delimiter sql stdout clock).record.Error = some e ∧
      (executeQuery none cur delimiter sql stdout clock).ws.recordsWritten
          = cur.rows.length) := by
  constructor
  · intro hdone
    simp only [executeQuery, hdone]
    refine ⟨?_, ?_⟩
    · rw [(executeQueryLoop_done delimiter.data.head! cur.schema hvalid
        cur.rows 0 _ _ _).1]
      omega
    · rw [csvFlush_recordsWritten,
        (executeQueryLoop_done delimiter.data.head! cur.schema hvalid
          cur.rows 0 _ _ _).2.2]
      simp
  · intro e herr
    simp only [executeQuery, herr]
    refine ⟨?_, ?_, ?_⟩
    · rw [(executeQueryLoop_error delimiter.data.head! cur.schema hvalid
        cur.rows e 0 _ _ _).1]
    · rw [(executeQueryLoop_error delimiter.data.head! cur.schema hvalid
        cur.rows e 0 _ _ _).2.1]
    · rw [csvFlush_recordsWritten,
        (executeQueryLoop_error delimiter.data.head! cur.schema hvalid
          cur.rows e 0 _ _ _).2.2]
      simp

/-- C3 witness: the amended claim applied to the one-row aborting cursor. -/
theorem c3_row_counter_witness :
    (executeQuery none cursorOneRowErr "," freshQuery "" 0).record.TotalRowsReturned = 0 ∧
    (executeQuery none cursorOneRowErr "," freshQuery "" 0).record.Error
        = some "bigquery: job failed" ∧
    (executeQuery none cursorOneRowErr "," freshQuery "" 0).ws.recordsWritten = 1 := by
  have h := (c3_row_counter cursorOneRowErr "," freshQuery "" 0 (by decide)).2
    "bigquery: job failed" rfl
  exact ⟨h.1, h.2.1, h.2.2⟩

/-- C6: a dry-run invocation writes zero bytes to the output stream — stdout
is untouched and every buffer stays empty, no record reaches the encoder —
and the record's row counter is unchanged (0 for the fresh per-invocation
record), whether the dry run succeeds or the service reports an error. -/
theorem c6_dry_run_no_output (env : ExecEnv) (project dataset location : String)
    (dqc : Bool) (delimiter : String) (sql : Query) (stdout : String)
    (clock : Nat) :
    (executeQueries env project dataset location dqc true delimiter sql stdout
        clock).ws.stdout = stdout ∧
    (executeQueries env project dataset location dqc true delimiter sql stdout
        clock).ws.outerBuf = "" ∧
    (executeQueries env project dataset location dqc true delimiter sql stdout
        clock).ws.innerBuf = "" ∧
    (executeQueries env project dataset location dqc true delimiter sql stdout
        clock).ws.recordsWritten = 0 ∧
    (executeQueries env project dataset location dqc true delimiter sql stdout
        clock).record.TotalRowsReturned = sql.TotalRowsReturned := by
  rcases hce : env.clientErr with _ | e
  · rcases hdo : env.dryOutcome with e1 | e1 | _ <;>
      by_cases herr : sql.Error.isSome = true <;>
        simp [executeQueries, executeDryRun, hce, hdo, herr]
  · simp [executeQueries, hce]

/-- C7: when the delimiter flag is not exactly one character long, the
program exits with status 1 without having read stdin and without any call
to the BigQuery service. -/
theorem c7_invalid_delimiter_exits_first (env : MainEnv)
    (h : env.args.fieldDelimiter.length ≠ 1) :
    (runMain env).exitCode = 1 ∧ (runMain env).stdinRead = false ∧
    (runMain env).networkCalled = false := by
  have hb : env.args.fieldDelimiter.utf8ByteSize ≠ 1 := fun hc =>
    h (utf8ByteSize_one_length_one _ hc)
  unfold runMain
  by_cases hpd : env.args.targetProject = "" ∨ env.args.targetDataset = ""
  · rw [if_pos hpd]
    exact ⟨rfl, rfl, rfl⟩
  · rw [if_neg hpd, if_pos hb]
    exact ⟨rfl, rfl, rfl⟩

/-- A run invoked with a two-character delimiter. -/
def envBadDelim : MainEnv where
  args :=
    { targetProject := "p"
      targetDataset := "d"
      fieldDelimiter := ";;"
      processingLocation := ""
      disableQueryCache := false
      dryRun := false }
  stdin := { isTerminal := false, data := "SELECT 1", readErr := none }
  exec :=
    { clientErr := none
      readErr := none
      cursor := { schema := [], rows := [], outcome := none }
      dryOutcome := DryRunOutcome.ok }

/-- C7 witness: the delimiter ";;" exits 1 before stdin or the network. -/
theorem c7_invalid_delimiter_witness :
    (runMain envBadDelim).exitCode = 1 ∧ (runMain envBadDelim).stdinRead = false ∧
    (runMain envBadDelim).networkCalled = false :=
  c7_invalid_delimiter_exits_first envBadDelim (by decide)

/-- C9: once the record's error slot holds an error, no later operation —
real query execution, dry run, or the whole ExecuteQueries flow (logging
included, which only reads the record) — ever returns it to the absent
state. -/
theorem c9_error_slot_terminal
    (readErr : Option GoError) (cur : Cursor) (outcome : DryRunOutcome)
    (env : ExecEnv) (project dataset location : String) (dqc dryRun : Bool)
    (delimiter : String) (sql : Query) (stdout : String) (clock : Nat)
    (hsome : sql.Error.isSome = true) :
    (executeQuery readErr cur delimiter sql stdout clock).record.Error.isSome = true ∧
    (executeDryRun outcome sql clock).1.Error.isSome = true ∧
    (executeQueries env project dataset location dqc dryRun delimiter sql stdout
        clock).record.Error.isSome = true := by
  have hq : ∀ (re : Option GoError) (c : Cursor) (d : String),
      (executeQuery re c d sql stdout clock).record.Error.isSome = true := by
    intro re c d
    rcases re with _ | e
    · simp only [executeQuery]
      exact executeQueryLoop_preserves_error _ _ _ _ _ _ _ _ hsome
    · rfl
  have hd : ∀ (o : DryRunOutcome) (ck : Nat),
      (executeDryRun o sql ck).1.Error.isSome = true := by
    intro o ck
    rcases o <;> simp [executeDryRun, hsome]
  refine ⟨hq readErr cur delimiter, hd outcome clock, ?_⟩
  rcases hce : env.clientErr with _ | e
  · by_cases hdr : dryRun
    · have h1 := hd env.dryOutcome clock
      simp [executeQueries, hce, hdr, h1]
    · have h1 := hq env.readErr env.cursor delimiter
      simp [executeQueries, hce, hdr, h1]
  · simp [executeQueries, hce, hsome]

/-- A record whose error slot is already populated. -/
def erroredQuery : Query := { freshQuery with Error := some "earlier failure" }

/-- C9 witness: a populated error slot survives each operation on a concrete
run. -/
theorem c9_error_slot_terminal_witness :
    (executeQuery none cursorOneRowErr "," erroredQuery "" 0).record.Error.isSome = true ∧
    (executeDryRun DryRunOutcome.ok erroredQuery 0).1.Error.isSome = true ∧
    (executeQueries ⟨none, none, cursorOneRowErr, DryRunOutcome.ok⟩ "p" "d" ""
        false false "," erroredQuery "" 0).record.Error.isSome = true :=
  c9_error_slot_terminal none cursorOneRowErr DryRunOutcome.ok
    ⟨none, none, cursorOneRowErr, DryRunOutcome.ok⟩ "p" "d" "" false false ","
    erroredQuery "" 0 (by decide)

/-- A real run: one row ["a"], cursor exhausted, comma delimiter. -/
def envOneRowDone : MainEnv where
  args :=
    { targetProject := "p"
      targetDataset := "d"
      fieldDelimiter := ","
      processingLocation := ""
      disableQueryCache := false
      dryRun := false }
  stdin := { isTerminal := false, data := "SELECT 1", readErr := none }
  exec :=
    { clientErr := none
      readErr := none
      cursor :=
        { schema := [FieldType.otherType "STRING"]
          rows := [[Value.str "a"]]
          outcome := none }
      dryOutcome := DryRunOutcome.ok }

/-- C1: the claim that every buffered output byte reaches stdout before exit
fails on the code — on a successful one-row run the encoded record ("a\n")
is flushed from the csv writer only into the intermediate `bufio.Writer`,
which is never flushed, so the process exits 0 with the bytes still in the
buffer and nothing on stdout. -/
theorem c1_flush_never_reaches_stdout :
    (runMain envOneRowDone).exitCode = 0 ∧
    (runMain envOneRowDone).ws.recordsWritten = 1 ∧
    (runMain envOneRowDone).ws.innerBuf = "" ∧
    (runMain envOneRowDone).ws.outerBuf = "a\n" ∧
    (runMain envOneRowDone).ws.stdout = "" := by
  refine ⟨?_, ?_, ?_, ?_, ?_⟩ <;> decide

/-- The same run, but the cursor fails after its one row. -/
def envOneRowErr : MainEnv where
  args :=
    { targetProject := "p"
      targetDataset := "d"
      fieldDelimiter := ","
      processingLocation := ""
      disableQueryCache := false
      dryRun := false }
  stdin := { isTerminal := false, data := "SELECT 1", readErr := none }
  exec :=
    { clientErr := none
      readErr := none
      cursor :=
        { schema := [FieldType.otherType "STRING"]
          rows := [[Value.str "a"]]
          outcome := some "bigquery: job failed" }
      dryOutcome := DryRunOutcome.ok }

/-- C4: when the cursor errors after k = 1 emitted rows, the process does
exit 1 with a populated error slot and exactly k records handed to the
encoder — but, contrary to the claim, no record appears on the output
stream: the encoded bytes sit in the never-flushed intermediate buffer. -/
theorem c4_error_abort_after_k_rows :
    (runMain envOneRowErr).exitCode = 1 ∧
    (runMain envOneRowErr).record.Error = some "bigquery: job failed" ∧
    (runMain envOneRowErr).ws.recordsWritten = 1 ∧
    (runMain envOneRowErr).ws.outerBuf = "a\n" ∧
    (runMain envOneRowErr).ws.stdout = "" := by
  refine ⟨?_, ?_, ?_, ?_, ?_⟩ <;> decide
